import Mathlib

/-!
# RedisRaft: a shallow embedding of `redisraft.h`

The header `redisraft.h` fixes the constants, enumerations, record layouts and
logging macros of the module.  The first part of this file embeds those
directly.  The bodies of the functions the header only declares (`log.c`,
`raft.c`, `snapshot.c`) are not part of the sources at hand; where a property
is about one of them, the function is modelled from the specification text and
its doc comment says so.
-/

namespace RedisRaft

/-! ## Logging macros -/

/-- The constant `LOGLEVEL_ERROR`, defined as 0. -/
def LOGLEVEL_ERROR : Int := 0

/-- The constant `LOGLEVEL_INFO`, defined as 1. -/
def LOGLEVEL_INFO : Int := 1

/-- The constant `LOGLEVEL_VERBOSE`, defined as 2. -/
def LOGLEVEL_VERBOSE : Int := 2

/-- The constant `LOGLEVEL_DEBUG`, defined as 3. -/
def LOGLEVEL_DEBUG : Int := 3

/-- The part of the process the logging macros act on: the global
`redis_raft_loglevel` (a C `int`), the messages handed to `raft_module_log` so
far (oldest first), and the exit status once `exit` has been called. -/
structure Process where
  redis_raft_loglevel : Int
  logged : List String
  exit_status : Option Int
  deriving DecidableEq, Repr

/-- A C statement acting on the process. -/
abbrev Stmt := Process → Process

/-- The call `raft_module_log(fmt, ...)`: the function is only declared in the
header, so the call is recorded with its formatted message. -/
def raft_module_log (msg : String) : Stmt :=
  fun p => { p with logged := p.logged ++ [msg] }

/-- The call `exit(status)`. -/
def exit (status : Int) : Stmt :=
  fun p => { p with exit_status := some status }

/-- Sequencing `a; b`: `b` runs only while the process has not exited. -/
def seq (a b : Stmt) : Stmt :=
  fun p =>
    let p1 := a p
    match p1.exit_status with
    | some _ => p1
    | none => b p1

/-- The macro `LOG(level, fmt, ...)`:
`do { if (redis_raft_loglevel >= level) raft_module_log(fmt, ...); } while(0)`. -/
def LOG (level : Int) (msg : String) : Stmt :=
  fun p => if p.redis_raft_loglevel ≥ level then raft_module_log msg p else p

/-- The macro `LOG_ERROR(fmt, ...)`. -/
def LOG_ERROR (msg : String) : Stmt := LOG LOGLEVEL_ERROR msg

/-- The macro `LOG_INFO(fmt, ...)`. -/
def LOG_INFO (msg : String) : Stmt := LOG LOGLEVEL_INFO msg

/-- The macro `LOG_VERBOSE(fmt, ...)`. -/
def LOG_VERBOSE (msg : String) : Stmt := LOG LOGLEVEL_VERBOSE msg

/-- The macro `LOG_DEBUG(fmt, ...)`. -/
def LOG_DEBUG (msg : String) : Stmt := LOG LOGLEVEL_DEBUG msg

/-- The literal that `PANIC` puts in front of its format string. -/
def PANIC_BANNER : String :=
  "\n\n!!!!!!!!!!!!!!!!!!!!!!!!!!!!!\nREDIS RAFT PANIC\n!!!!!!!!!!!!!!!!!!!!!!!!!!!!!\n\n"

/-- The macro `PANIC(fmt, ...)`:
`do { LOG_ERROR(banner fmt, ...); exit(1); } while (0)`. -/
def PANIC (msg : String) : Stmt :=
  seq (LOG_ERROR (PANIC_BANNER ++ msg)) (exit 1)

/-! ## Constants -/

/-- The constant `RAFT_DBID_LEN`, defined as 32: the length of a database id. -/
def RAFT_DBID_LEN : Nat := 32

/-- The constant `REDIS_RAFT_DEFAULT_INTERVAL`, defined as 100. -/
def REDIS_RAFT_DEFAULT_INTERVAL : Int := 100

/-- The constant `REDIS_RAFT_DEFAULT_REQUEST_TIMEOUT`, defined as 250. -/
def REDIS_RAFT_DEFAULT_REQUEST_TIMEOUT : Int := 250

/-- The constant `REDIS_RAFT_DEFAULT_ELECTION_TIMEOUT`, defined as 500. -/
def REDIS_RAFT_DEFAULT_ELECTION_TIMEOUT : Int := 500

/-- The constant `REDIS_RAFT_DEFAULT_RECONNECT_INTERVAL`, defined as 100. -/
def REDIS_RAFT_DEFAULT_RECONNECT_INTERVAL : Int := 100

/-- The constant `REDIS_RAFT_DEFAULT_MAX_LOG_ENTRIES`, defined as 10000. -/
def REDIS_RAFT_DEFAULT_MAX_LOG_ENTRIES : Int := 10000

/-- The constant `RAFTLOG_VERSION`, defined as 1. -/
def RAFTLOG_VERSION : Nat := 1

/-- The constant `SNAPSHOT_RESULT_MAGIC`, defined as 0x70616e73. -/
def SNAPSHOT_RESULT_MAGIC : Nat := 0x70616e73

/-- The four bytes of a 32-bit value, least significant first. -/
def bytesLE32 (n : Nat) : List Nat :=
  [n % 256, n / 256 % 256, n / 65536 % 256, n / 16777216 % 256]

/-- Conversion of an integer to a signed 32-bit `int` (two's complement). -/
def toInt32 (n : Int) : Int := (n + 2 ^ 31) % 2 ^ 32 - 2 ^ 31

/-- Storing a value in the `int magic` field of `SnapshotResult` and reading
the field back. -/
def storeMagic (n : Nat) : Int := toInt32 (n : Int)

/-! ## Character buffers -/

/-- Capacity in bytes of `char dbid[RAFT_DBID_LEN+1]` in `RaftSnapshotInfo`. -/
def RaftSnapshotInfo_dbid_size : Nat := RAFT_DBID_LEN + 1

/-- Capacity in bytes of `char dbid[RAFT_DBID_LEN+1]` in `RaftLog`. -/
def RaftLog_dbid_size : Nat := RAFT_DBID_LEN + 1

/-- A C string of these characters fits a buffer of `size` bytes when there is
room for the characters and the terminating NUL. -/
def cstrFits (size : Nat) (s : List Char) : Bool := decide (s.length + 1 ≤ size)

/-- A bounded copy of a C string into a buffer of `size` bytes: as many
characters as leave room for the terminator. -/
def cstrCopy (size : Nat) (s : List Char) : List Char := s.take (size - 1)

/-! ## Enumerations -/

/-- The enumeration `NodeState`. -/
inductive NodeState where
  | NODE_DISCONNECTED
  | NODE_RESOLVING
  | NODE_CONNECTING
  | NODE_CONNECTED
  | NODE_CONNECT_ERROR
  deriving DecidableEq, Repr

/-- The integer value C gives each `NodeState` enumerator. -/
def NodeState.toInt : NodeState → Int
  | .NODE_DISCONNECTED => 0
  | .NODE_RESOLVING => 1
  | .NODE_CONNECTING => 2
  | .NODE_CONNECTED => 3
  | .NODE_CONNECT_ERROR => 4

/-- The macro `NODE_STATE_IDLE(x)`:
`((x) == NODE_DISCONNECTED || (x) == NODE_CONNECT_ERROR)`. -/
def NODE_STATE_IDLE (x : Int) : Bool :=
  x == NodeState.NODE_DISCONNECTED.toInt || x == NodeState.NODE_CONNECT_ERROR.toInt

/-- The enumeration `RaftReqType`; the first enumerator is given the value 1
and the others follow. -/
inductive RaftReqType where
  | RR_CFGCHANGE_ADDNODE
  | RR_CFGCHANGE_REMOVENODE
  | RR_APPENDENTRIES
  | RR_REQUESTVOTE
  | RR_REDISCOMMAND
  | RR_INFO
  | RR_LOADSNAPSHOT
  | RR_COMPACT
  deriving DecidableEq, Repr

/-- The integer value C gives each `RaftReqType` enumerator. -/
def RaftReqType.toInt : RaftReqType → Int
  | .RR_CFGCHANGE_ADDNODE => 1
  | .RR_CFGCHANGE_REMOVENODE => 2
  | .RR_APPENDENTRIES => 3
  | .RR_REQUESTVOTE => 4
  | .RR_REDISCOMMAND => 5
  | .RR_INFO => 6
  | .RR_LOADSNAPSHOT => 7
  | .RR_COMPACT => 8

/-- The enumerators of `RaftReqType` in declaration order. -/
def RaftReqType.all : List RaftReqType :=
  [.RR_CFGCHANGE_ADDNODE, .RR_CFGCHANGE_REMOVENODE, .RR_APPENDENTRIES, .RR_REQUESTVOTE,
   .RR_REDISCOMMAND, .RR_INFO, .RR_LOADSNAPSHOT, .RR_COMPACT]

/-- The enumeration `RedisRaftState`. -/
inductive RedisRaftState where
  | REDIS_RAFT_UP
  | REDIS_RAFT_LOADING
  | REDIS_RAFT_JOINING
  deriving DecidableEq, Repr

/-- The enumeration `RedisRaftResult`. -/
inductive RedisRaftResult where
  | RR_OK
  | RR_ERROR
  deriving DecidableEq, Repr

/-! ## Records -/

/-- The record `NodeAddr`. -/
structure NodeAddr where
  port : Nat
  host : List Char
  deriving DecidableEq, Repr

/-- The record `SnapshotCfgEntry`; the `next` link is the list it sits in. -/
structure SnapshotCfgEntry where
  id : Int
  active : Int
  voting : Int
  addr : NodeAddr
  deriving DecidableEq, Repr

/-- The record `RaftSnapshotInfo`. -/
structure RaftSnapshotInfo where
  loaded : Bool
  dbid : List Char
  last_applied_term : Int
  last_applied_idx : Int
  cfg : List SnapshotCfgEntry
  deriving DecidableEq, Repr

/-- The record `SnapshotResult`. -/
structure SnapshotResult where
  magic : Int
  success : Int
  num_entries : Int
  rdb_filename : List Char
  log_filename : List Char
  err : List Char
  deriving DecidableEq, Repr

/-- The record `RaftReq`: the `type` tag (a C `int`), the blocked client and
its reply context (as handles), and the payload union `r`.  The members of the
union are message types of headers outside the sources, so the payload type is
the parameter `ρ`.  The `entries` link is the queue the request sits in. -/
structure RaftReq (ρ : Type) where
  type : Int
  client : Nat
  ctx : Nat
  r : ρ
  deriving DecidableEq, Repr

/-! ## The durable log -/

/-- Modelled from the spec: the header of the log file, "header = {version:
u32, cluster-id: fixed 32-byte string, entry-count, snapshot-last-term,
snapshot-last-index, vote, term, live-index}".  The field names are those of
the record `RaftLog`, which holds the same metadata in memory.  Terms, indices
and node ids are signed integer types of the consensus library. -/
structure RaftLogHeader where
  version : Nat
  dbid : List Char
  num_entries : Nat
  snapshot_last_term : Int
  snapshot_last_idx : Int
  vote : Int
  term : Int
  index : Int
  deriving DecidableEq, Repr

/-- Modelled from the spec: one record of the log file body, "each either an
appended entry or a head/tail removal marker".  The entry type `raft_entry_t`
belongs to the consensus library and is the parameter `ε`. -/
inductive RaftLogRecord (ε : Type) where
  | entry (e : ε)
  | removeHead
  | removeTail
  deriving DecidableEq, Repr

/-- Modelled from the spec: the log file, a header followed by the "ordered
sequence of tagged records". -/
structure RaftLogFile (ε : Type) where
  header : RaftLogHeader
  body : List (RaftLogRecord ε)
  deriving DecidableEq, Repr

/-- The record `RaftLog`: the metadata fields `version` to `index`, and `file`,
here the contents of the open file. -/
structure RaftLog (ε : Type) extends RaftLogHeader where
  file : RaftLogFile ε
  deriving DecidableEq, Repr

/-- The range of `unsigned long int`, the type of `RaftLog.num_entries`
(64 bits on the LP64 platforms the module targets). -/
def ULONG_RANGE : Nat := 2 ^ 64

/-- Modelled from the spec: `RaftLogCreate`, declared in the header, body in
`log.c`: "initializes a new log file with header metadata and zero entries".
The term and index given become the snapshot boundary and the current
term/index; no vote is recorded (-1). -/
def RaftLogCreate {ε : Type} (dbid : List Char) (term index : Int) : RaftLog ε :=
  let h : RaftLogHeader :=
    { version := RAFTLOG_VERSION, dbid := dbid, num_entries := 0,
      snapshot_last_term := term, snapshot_last_idx := index,
      vote := -1, term := term, index := index }
  { toRaftLogHeader := h, file := { header := h, body := [] } }

/-- Modelled from the spec: `RaftLogOpen`, declared in the header, body in
`log.c`: "validates the header (version, cluster id) and positions the cursor
at the end for appends, returning a handle whose in-memory metadata mirrors the
durable header".  The argument is the file found under the file name; `none`
is the NULL handle.  The spec names the cluster-id check without giving its
rule, so the rule is the parameter `dbidValid`. -/
def RaftLogOpen {ε : Type} (dbidValid : List Char → Bool) (f : RaftLogFile ε) :
    Option (RaftLog ε) :=
  if f.header.version = RAFTLOG_VERSION then
    if dbidValid f.header.dbid then
      some { toRaftLogHeader := f.header, file := f }
    else none
  else none

/-- Modelled from the spec: `RaftLogAppend`, declared in the header, body in
`log.c`: "writes the entry's serialized payload, increments
`num_entries`/`index`".  The record goes to the end of the file. -/
def RaftLogAppend {ε : Type} (log : RaftLog ε) (entry : ε) : RaftLog ε × Bool :=
  ({ log with
      num_entries := (log.num_entries + 1) % ULONG_RANGE
      index := log.index + 1
      file := { log.file with body := log.file.body ++ [RaftLogRecord.entry entry] } },
   true)

/-- Modelled from the spec: `RaftLogRemoveHead`, declared in the header, body
in `log.c`: trims the log from the head, one entry a call, by a removal marker;
"`RemoveHead` beyond `num_entries` is a no-op guarded by a bounds check". -/
def RaftLogRemoveHead {ε : Type} (log : RaftLog ε) : RaftLog ε × Bool :=
  if log.num_entries = 0 then (log, false)
  else
    ({ log with
        num_entries := log.num_entries - 1
        file := { log.file with body := log.file.body ++ [RaftLogRecord.removeHead] } },
     true)

/-- The record `RedisRaftCtx`, with the fields the request queue and the
snapshot life cycle work on; `rqueue` is the tail queue, head first. -/
structure RedisRaftCtx (ρ ε : Type) where
  state : RedisRaftState
  rqueue : List (RaftReq ρ)
  log : Option (RaftLog ε)
  snapshot_in_progress : Bool
  loading_snapshot : Bool
  snapshot_rewrite_last_idx : Int
  compact_req : Option (RaftReq ρ)
  snapshot_child_fd : Int
  snapshot_info : RaftSnapshotInfo
  deriving DecidableEq, Repr

/-- The function type `RaftReqHandler`, `void (*)(RedisRaftCtx *, struct RaftReq *)`. -/
abbrev RaftReqHandler (ρ ε : Type) := RedisRaftCtx ρ ε → RaftReq ρ → RedisRaftCtx ρ ε

/-- Modelled from the spec: `RaftReqSubmit`, declared in the header, body in
`raft.c`: "appends to the tail of an ordered queue under mutual exclusion, then
asynchronously signals the loop thread". -/
def RaftReqSubmit {ρ ε : Type} (rr : RedisRaftCtx ρ ε) (req : RaftReq ρ) : RedisRaftCtx ρ ε :=
  { rr with rqueue := rr.rqueue ++ [req] }

/-- Modelled from the spec: `RaftReqHandleQueue`, declared in the header, body
in `raft.c`: "drains the entire queue in FIFO order, and for each request
invokes the handler registered for its type".  Each round takes the request at
the head off the queue and hands it to its handler; `fuel` bounds the rounds.
The result is the context and the requests dispatched, in dispatch order. -/
def RaftReqHandleQueue {ρ ε : Type} (handlers : Int → RaftReqHandler ρ ε) :
    Nat → RedisRaftCtx ρ ε → RedisRaftCtx ρ ε × List (RaftReq ρ)
  | 0, rr => (rr, [])
  | fuel + 1, rr =>
    match rr.rqueue with
    | [] => (rr, [])
    | req :: rest =>
      let r := RaftReqHandleQueue handlers fuel (handlers req.type { rr with rqueue := rest } req)
      (r.1, req :: r.2)

/-- The two ways a snapshot in progress is brought to an end. -/
inductive SnapshotCall where
  | finalizeSnapshot
  | cancelSnapshot
  deriving DecidableEq, Repr

/-- What a poll of the snapshot producer finds. -/
inductive SnapshotPoll where
  | pending
  | rejected (sr : SnapshotResult)
  | completed (sr : SnapshotResult)
  deriving DecidableEq, Repr

/-- Modelled from the spec: `pollSnapshotStatus`, declared in the header, body
in `snapshot.c`: "performs a non-blocking check for producer completion; on
completion validates `result.magic` before trusting any other field".
`produced` is what the producer has delivered on `snapshot_child_fd`, if
anything; a result that reports failure is rejected as well. -/
def pollSnapshotStatus {ρ ε : Type} (_rr : RedisRaftCtx ρ ε) (produced : Option SnapshotResult) :
    SnapshotPoll :=
  match produced with
  | none => SnapshotPoll.pending
  | some sr =>
    if sr.magic ≠ (SNAPSHOT_RESULT_MAGIC : Int) then SnapshotPoll.rejected sr
    else if sr.success = 0 then SnapshotPoll.rejected sr
    else SnapshotPoll.completed sr

/-- Calls `RaftLogRemoveHead` while the oldest entry of the log lies at or
before `boundary`. -/
def removeHeadUpTo {ε : Type} (boundary : Int) : Nat → RaftLog ε → RaftLog ε
  | 0, log => log
  | fuel + 1, log =>
    if 0 < log.num_entries ∧ log.index - (log.num_entries : Int) + 1 ≤ boundary then
      removeHeadUpTo boundary fuel (RaftLogRemoveHead log).1
    else log

/-- Modelled from the spec: `finalizeSnapshot`, declared in the header, body in
`snapshot.c`: "calls `RemoveHead` on the Durable Log up to the new boundary,
and clears `snapshot_in_progress`".  The boundary is the trigger index
`snapshot_rewrite_last_idx`; the snapshot files are outside the model. -/
def finalizeSnapshot {ρ ε : Type} (rr : RedisRaftCtx ρ ε) (_sr : SnapshotResult) :
    RedisRaftCtx ρ ε × RedisRaftResult :=
  ({ rr with
      log := rr.log.map
        (fun log => removeHeadUpTo rr.snapshot_rewrite_last_idx log.num_entries log)
      snapshot_in_progress := false },
   RedisRaftResult.RR_OK)

/-- Modelled from the spec: `cancelSnapshot`, declared in the header, body in
`snapshot.c`: "discards partial output files and clears in-progress flags
without mutating the log".  The snapshot files are outside the model. -/
def cancelSnapshot {ρ ε : Type} (rr : RedisRaftCtx ρ ε) (_sr : SnapshotResult) :
    RedisRaftCtx ρ ε :=
  { rr with snapshot_in_progress := false }

/-- Modelled from the spec: the snapshot part of one loop iteration, in
`raft.c`: `pollSnapshotStatus` is "called once per loop iteration while a
snapshot is in progress"; a rejected result "triggers `CancelSnapshot`", a
completed one `FinalizeSnapshot`.  The result is the context and the call
made, if any. -/
def snapshotPollIteration {ρ ε : Type} (rr : RedisRaftCtx ρ ε)
    (produced : Option SnapshotResult) : RedisRaftCtx ρ ε × Option SnapshotCall :=
  if rr.snapshot_in_progress then
    match pollSnapshotStatus rr produced with
    | .pending => (rr, none)
    | .rejected sr => (cancelSnapshot rr sr, some SnapshotCall.cancelSnapshot)
    | .completed sr => ((finalizeSnapshot rr sr).1, some SnapshotCall.finalizeSnapshot)
  else (rr, none)

/-! ## Concrete inputs -/

/-- A context with an empty queue, no log and no snapshot in progress. -/
def idleCtx : RedisRaftCtx Nat Nat :=
  { state := RedisRaftState.REDIS_RAFT_UP, rqueue := [], log := none,
    snapshot_in_progress := false, loading_snapshot := false,
    snapshot_rewrite_last_idx := 0, compact_req := none, snapshot_child_fd := 0,
    snapshot_info := { loaded := false, dbid := [], last_applied_term := 0,
                       last_applied_idx := 0, cfg := [] } }

/-- A context with a snapshot in progress over a log of one entry. -/
def snapshottingCtx : RedisRaftCtx Nat Nat :=
  { idleCtx with
    log := some (RaftLogAppend (RaftLogCreate [] 1 0) 7).1
    snapshot_in_progress := true
    snapshot_rewrite_last_idx := 1
    snapshot_child_fd := 5 }

/-- A snapshot result with a wrong magic (0) that claims success. -/
def garbledResult : SnapshotResult :=
  { magic := 0, success := 1, num_entries := 1, rdb_filename := [], log_filename := [],
    err := [] }

/-- Handlers that count the dispatched requests in `snapshot_child_fd`. -/
def countingHandlers : Int → RaftReqHandler Nat Nat :=
  fun _ rr _ => { rr with snapshot_child_fd := rr.snapshot_child_fd + 1 }

/-- Three requests: a redis command, an info request and a compaction. -/
def threeRequests : List (RaftReq Nat) :=
  [{ type := 5, client := 1, ctx := 1, r := 10 },
   { type := 6, client := 2, ctx := 2, r := 20 },
   { type := 8, client := 3, ctx := 3, r := 30 }]

/-- A log file with a well-formed header of the given version and no records. -/
def emptyLogFile (version : Nat) : RaftLogFile Nat :=
  { header := { version := version, dbid := List.replicate 32 'a', num_entries := 0,
                snapshot_last_term := 1, snapshot_last_idx := 0, vote := -1,
                term := 1, index := 0 },
    body := [] }

/-- A cluster-id check: the id has `RAFT_DBID_LEN` characters. -/
def dbidHasFixedLength (dbid : List Char) : Bool := decide (dbid.length = RAFT_DBID_LEN)

/-! ## Theorems -/

/-- C1: `NODE_STATE_IDLE(s)` holds exactly for `NODE_DISCONNECTED` and
`NODE_CONNECT_ERROR`; `NODE_RESOLVING`, `NODE_CONNECTING` and `NODE_CONNECTED`
are not idle and `NODE_CONNECT_ERROR` is. -/
theorem node_state_idle_iff (s : NodeState) :
    (NODE_STATE_IDLE s.toInt = true ↔
        s = NodeState.NODE_DISCONNECTED ∨ s = NodeState.NODE_CONNECT_ERROR) ∧
      NODE_STATE_IDLE NodeState.NODE_RESOLVING.toInt = false ∧
      NODE_STATE_IDLE NodeState.NODE_CONNECTING.toInt = false ∧
      NODE_STATE_IDLE NodeState.NODE_CONNECTED.toInt = false ∧
      NODE_STATE_IDLE NodeState.NODE_CONNECT_ERROR.toInt = true := by
  refine ⟨?_, by decide, by decide, by decide, by decide⟩
  cases s <;> decide

/-- C6: `RaftReqType` has eight enumerators, tagged 1 to 8 in declaration
order; the tags are pairwise distinct and none is 0. -/
theorem raft_req_type_tags :
    RaftReqType.all.length = 8 ∧
      (∀ t : RaftReqType, t ∈ RaftReqType.all) ∧
      RaftReqType.all.Nodup ∧
      RaftReqType.all.map RaftReqType.toInt = [1, 2, 3, 4, 5, 6, 7, 8] ∧
      Function.Injective RaftReqType.toInt ∧
      ∀ t : RaftReqType, t.toInt ≠ 0 := by
  refine ⟨rfl, ?_, by decide, rfl, ?_, ?_⟩
  · intro t
    cases t <;> decide
  · intro a b h
    cases a <;> cases b <;> first | rfl | (exact absurd h (by decide))
  · intro t
    cases t <;> decide

/-- C7: `RAFT_DBID_LEN` is 32 and the `dbid` buffers of `RaftLog` and
`RaftSnapshotInfo` both hold 33 bytes; an id of 32 characters fits either with
its terminator, and an id that fits one buffer is copied whole into the
other. -/
theorem dbid_buffers_agree :
    RAFT_DBID_LEN = 32 ∧ RaftLog_dbid_size = 33 ∧ RaftSnapshotInfo_dbid_size = 33 ∧
      (∀ id : List Char, id.length = RAFT_DBID_LEN →
        cstrFits RaftLog_dbid_size id = true ∧ cstrFits RaftSnapshotInfo_dbid_size id = true) ∧
      (∀ id : List Char, cstrFits RaftLog_dbid_size id = true →
        cstrCopy RaftSnapshotInfo_dbid_size id = id) ∧
      (∀ id : List Char, cstrFits RaftSnapshotInfo_dbid_size id = true →
        cstrCopy RaftLog_dbid_size id = id) := by
  refine ⟨rfl, rfl, rfl, ?_, ?_, ?_⟩
  · intro id h
    simp [cstrFits, RaftLog_dbid_size, RaftSnapshotInfo_dbid_size, h]
  · intro id h
    simp only [cstrFits, RaftLog_dbid_size, RAFT_DBID_LEN, decide_eq_true_eq] at h
    simp only [cstrCopy, RaftSnapshotInfo_dbid_size, RAFT_DBID_LEN]
    exact List.take_of_length_le (by omega)
  · intro id h
    simp only [cstrFits, RaftSnapshotInfo_dbid_size, RAFT_DBID_LEN, decide_eq_true_eq] at h
    simp only [cstrCopy, RaftLog_dbid_size, RAFT_DBID_LEN]
    exact List.take_of_length_le (by omega)

/-- C8: invoked on a running process whose `redis_raft_loglevel` is at least
`LOGLEVEL_ERROR`, as each of the four defined levels is, `PANIC` logs the
message, banner first, and then ends the process with exit status 1; whatever
follows the `PANIC` does not run. -/
theorem panic_logs_then_exits (p : Process) (msg : String) (rest : Stmt)
    (hrun : p.exit_status = none) (hlevel : LOGLEVEL_ERROR ≤ p.redis_raft_loglevel) :
    PANIC msg p =
        { p with logged := p.logged ++ [PANIC_BANNER ++ msg], exit_status := some 1 } ∧
      seq (PANIC msg) rest p = PANIC msg p ∧
      ∀ l ∈ [LOGLEVEL_ERROR, LOGLEVEL_INFO, LOGLEVEL_VERBOSE, LOGLEVEL_DEBUG],
        LOGLEVEL_ERROR ≤ l := by
  have h1 : p.redis_raft_loglevel ≥ LOGLEVEL_ERROR := hlevel
  have hpanic : PANIC msg p =
      { p with logged := p.logged ++ [PANIC_BANNER ++ msg], exit_status := some 1 } := by
    simp [PANIC, seq, LOG_ERROR, LOG, raft_module_log, exit, h1, hrun]
  refine ⟨hpanic, ?_, by decide⟩
  have hexit : (PANIC msg p).exit_status = some 1 := by rw [hpanic]
  simp only [seq] at hexit ⊢
  simp only [seq, hexit]

/-- C8, witness: running processes at the lowest and the highest defined log
level that panic with a message and have a further log call after the
panic. -/
theorem panic_logs_then_exits_witness :
    PANIC "bad log" { redis_raft_loglevel := 0, logged := ["up"], exit_status := none }
        = { redis_raft_loglevel := 0, logged := ["up", PANIC_BANNER ++ "bad log"],
            exit_status := some 1 } ∧
      seq (PANIC "bad log") (LOG_ERROR "after")
          { redis_raft_loglevel := 3, logged := [], exit_status := none }
        = PANIC "bad log" { redis_raft_loglevel := 3, logged := [], exit_status := none } :=
  ⟨(panic_logs_then_exits { redis_raft_loglevel := 0, logged := ["up"], exit_status := none }
      "bad log" (LOG_ERROR "after") rfl (by decide)).1,
   (panic_logs_then_exits { redis_raft_loglevel := 3, logged := [], exit_status := none }
      "bad log" (LOG_ERROR "after") rfl (by decide)).2.1⟩

/-- C9: the bytes of `SNAPSHOT_RESULT_MAGIC`, least significant first, are
0x73, 0x6e, 0x61, 0x70, the characters of "snap"; the constant is below 2^31
and is stored in the signed 32-bit `magic` field without change. -/
theorem snapshot_magic_spells_snap :
    bytesLE32 SNAPSHOT_RESULT_MAGIC = [0x73, 0x6e, 0x61, 0x70] ∧
      (bytesLE32 SNAPSHOT_RESULT_MAGIC).map Char.ofNat = ['s', 'n', 'a', 'p'] ∧
      String.mk ((bytesLE32 SNAPSHOT_RESULT_MAGIC).map Char.ofNat) = "snap" ∧
      SNAPSHOT_RESULT_MAGIC < 2 ^ 31 ∧
      storeMagic SNAPSHOT_RESULT_MAGIC = (SNAPSHOT_RESULT_MAGIC : Int) := by
  refine ⟨by decide, by decide, by decide, by decide, by decide⟩

/-- C10: the default interval, request timeout and election timeout are
positive and strictly increasing (100, 250, 500), the election timeout is twice
the request timeout, and an election timeout spans at least two intervals and
at least one request timeout. -/
theorem default_timeouts_ordered :
    0 < REDIS_RAFT_DEFAULT_INTERVAL ∧
      REDIS_RAFT_DEFAULT_INTERVAL < REDIS_RAFT_DEFAULT_REQUEST_TIMEOUT ∧
      REDIS_RAFT_DEFAULT_REQUEST_TIMEOUT < REDIS_RAFT_DEFAULT_ELECTION_TIMEOUT ∧
      REDIS_RAFT_DEFAULT_INTERVAL = 100 ∧
      REDIS_RAFT_DEFAULT_REQUEST_TIMEOUT = 250 ∧
      REDIS_RAFT_DEFAULT_ELECTION_TIMEOUT = 500 ∧
      REDIS_RAFT_DEFAULT_ELECTION_TIMEOUT = 2 * REDIS_RAFT_DEFAULT_REQUEST_TIMEOUT ∧
      2 * REDIS_RAFT_DEFAULT_INTERVAL ≤ REDIS_RAFT_DEFAULT_ELECTION_TIMEOUT ∧
      2 ≤ REDIS_RAFT_DEFAULT_ELECTION_TIMEOUT / REDIS_RAFT_DEFAULT_INTERVAL ∧
      1 ≤ REDIS_RAFT_DEFAULT_ELECTION_TIMEOUT / REDIS_RAFT_DEFAULT_REQUEST_TIMEOUT := by
  refine ⟨by decide, by decide, by decide, rfl, rfl, rfl, by decide, by decide, by decide,
    by decide⟩

/-! ### The snapshot poll -/

/-- C2: a `SnapshotResult` whose magic is not `SNAPSHOT_RESULT_MAGIC` is
rejected by the poll whatever its other fields hold, and the loop iteration of
a snapshot in progress then calls `cancelSnapshot`, not `finalizeSnapshot`, and
leaves the log as it was. -/
theorem bad_magic_cancels_snapshot {ρ ε : Type} (rr : RedisRaftCtx ρ ε) (sr : SnapshotResult)
    (hmagic : sr.magic ≠ (SNAPSHOT_RESULT_MAGIC : Int))
    (hprogress : rr.snapshot_in_progress = true) :
    pollSnapshotStatus rr (some sr) = SnapshotPoll.rejected sr ∧
      snapshotPollIteration rr (some sr)
        = (cancelSnapshot rr sr, some SnapshotCall.cancelSnapshot) ∧
      (snapshotPollIteration rr (some sr)).2 ≠ some SnapshotCall.finalizeSnapshot ∧
      (snapshotPollIteration rr (some sr)).1.log = rr.log := by
  have hpoll : pollSnapshotStatus rr (some sr) = SnapshotPoll.rejected sr := by
    simp [pollSnapshotStatus, hmagic]
  have hiter : snapshotPollIteration rr (some sr)
      = (cancelSnapshot rr sr, some SnapshotCall.cancelSnapshot) := by
    simp [snapshotPollIteration, hprogress, hpoll]
  refine ⟨hpoll, hiter, ?_, ?_⟩
  · rw [hiter]
    simp
  · rw [hiter]
    rfl

/-- C2, witness: a result with magic 0 that claims success, polled while a
snapshot is in progress over a log of one entry. -/
theorem bad_magic_cancels_snapshot_witness :
    garbledResult.magic ≠ (SNAPSHOT_RESULT_MAGIC : Int) ∧
      snapshottingCtx.snapshot_in_progress = true ∧
      snapshotPollIteration snapshottingCtx (some garbledResult)
        = (cancelSnapshot snapshottingCtx garbledResult, some SnapshotCall.cancelSnapshot) :=
  ⟨by decide, rfl,
   (bad_magic_cancels_snapshot snapshottingCtx garbledResult (by decide) rfl).2.1⟩

/-! ### The durable log: opening -/

/-- C5: a file whose header version is not `RAFTLOG_VERSION` is not opened
(no handle is returned); a handle that is returned has version
`RAFTLOG_VERSION` and metadata equal to the file header; and a file with the
right version and an accepted cluster id is opened. -/
theorem raftlog_open_validates_version {ε : Type} (dbidValid : List Char → Bool)
    (f : RaftLogFile ε) :
    (f.header.version ≠ RAFTLOG_VERSION → RaftLogOpen dbidValid f = none) ∧
      (∀ log : RaftLog ε, RaftLogOpen dbidValid f = some log →
        log.version = RAFTLOG_VERSION ∧ log.toRaftLogHeader = f.header ∧ log.file = f) ∧
      (f.header.version = RAFTLOG_VERSION → dbidValid f.header.dbid = true →
        ∃ log : RaftLog ε, RaftLogOpen dbidValid f = some log) := by
  refine ⟨?_, ?_, ?_⟩
  · intro h
    simp [RaftLogOpen, h]
  · intro log h
    unfold RaftLogOpen at h
    split at h
    · rename_i hv
      split at h
      · cases h
        exact ⟨hv, rfl, rfl⟩
      · cases h
    · cases h
  · intro hv hd
    exact ⟨{ toRaftLogHeader := f.header, file := f }, by simp [RaftLogOpen, hv, hd]⟩

/-- C5, witness: a file with header version 2 is refused, and the same file
with version 1 is opened. -/
theorem raftlog_open_validates_version_witness :
    RaftLogOpen dbidHasFixedLength (emptyLogFile 2) = none ∧
      ∃ log : RaftLog Nat, RaftLogOpen dbidHasFixedLength (emptyLogFile 1) = some log :=
  ⟨(raftlog_open_validates_version dbidHasFixedLength (emptyLogFile 2)).1 (by decide),
   (raftlog_open_validates_version dbidHasFixedLength (emptyLogFile 1)).2.2 rfl (by decide)⟩

/-! ### The request queue -/

/-- Submitting requests one after the other puts them behind what the queue
already holds, in submission order. -/
theorem submit_all_rqueue {ρ ε : Type} (reqs : List (RaftReq ρ)) (rr : RedisRaftCtx ρ ε) :
    (reqs.foldl RaftReqSubmit rr).rqueue = rr.rqueue ++ reqs := by
  induction reqs generalizing rr with
  | nil => simp
  | cons req reqs ih =>
    rw [List.foldl_cons, ih]
    simp [RaftReqSubmit]

/-- With handlers that leave the queue alone, fuel for every queued request
lets `RaftReqHandleQueue` dispatch the whole queue, head first, and empty it. -/
theorem handle_queue_drains {ρ ε : Type} (handlers : Int → RaftReqHandler ρ ε)
    (hframe : ∀ (t : Int) (rr : RedisRaftCtx ρ ε) (req : RaftReq ρ),
      (handlers t rr req).rqueue = rr.rqueue)
    (fuel : Nat) (rr : RedisRaftCtx ρ ε) (hfuel : rr.rqueue.length ≤ fuel) :
    (RaftReqHandleQueue handlers fuel rr).2 = rr.rqueue ∧
      (RaftReqHandleQueue handlers fuel rr).1.rqueue = [] := by
  induction fuel generalizing rr with
  | zero =>
    have hq : rr.rqueue = [] := List.length_eq_zero.mp (Nat.le_zero.mp hfuel)
    simp [RaftReqHandleQueue, hq]
  | succ fuel ih =>
    unfold RaftReqHandleQueue
    cases hq : rr.rqueue with
    | nil => simp [hq]
    | cons req rest =>
      have hnext : (handlers req.type { rr with rqueue := rest } req).rqueue = rest := by
        rw [hframe]
      have hlen : (handlers req.type { rr with rqueue := rest } req).rqueue.length ≤ fuel := by
        rw [hnext]
        rw [hq] at hfuel
        simpa using hfuel
      have h := ih (handlers req.type { rr with rqueue := rest } req) hlen
      simp only [h.1, h.2, hnext, and_self]

/-- C4: requests submitted in the order r1..rn to a context with an empty
queue are queued in that order, and `RaftReqHandleQueue`, given fuel for n
rounds and handlers that leave the queue alone, dispatches exactly r1..rn in
that order and leaves the queue empty. -/
theorem requests_dispatched_in_submission_order {ρ ε : Type}
    (handlers : Int → RaftReqHandler ρ ε)
    (hframe : ∀ (t : Int) (rr : RedisRaftCtx ρ ε) (req : RaftReq ρ),
      (handlers t rr req).rqueue = rr.rqueue)
    (rr0 : RedisRaftCtx ρ ε) (hempty : rr0.rqueue = [])
    (reqs : List (RaftReq ρ)) (fuel : Nat) (hfuel : reqs.length ≤ fuel) :
    (reqs.foldl RaftReqSubmit rr0).rqueue = reqs ∧
      (RaftReqHandleQueue handlers fuel (reqs.foldl RaftReqSubmit rr0)).2 = reqs ∧
      (RaftReqHandleQueue handlers fuel (reqs.foldl RaftReqSubmit rr0)).1.rqueue = [] := by
  have hq : (reqs.foldl RaftReqSubmit rr0).rqueue = reqs := by
    rw [submit_all_rqueue, hempty, List.nil_append]
  have h := handle_queue_drains handlers hframe fuel (reqs.foldl RaftReqSubmit rr0)
    (by rw [hq]; exact hfuel)
  exact ⟨hq, by rw [h.1, hq], h.2⟩

/-- C4, witness: three requests (a redis command, an info request and a
compaction) submitted to an empty queue, with handlers that count the
dispatched requests. -/
theorem requests_dispatched_in_submission_order_witness :
    idleCtx.rqueue = [] ∧ threeRequests.length ≤ 3 ∧
      (RaftReqHandleQueue countingHandlers 3 (threeRequests.foldl RaftReqSubmit idleCtx)).2
        = threeRequests :=
  ⟨rfl, by decide,
   (requests_dispatched_in_submission_order countingHandlers (fun _ _ _ => rfl) idleCtx rfl
      threeRequests 3 (by decide)).2.1⟩

/-! ### The durable log: replay -/

end RedisRaft
